import Mathlib

/-!
Shallow embedding of the BlinkStick Rust library (`src/lib.rs`).

Bytes are modelled as natural numbers; a `u8` truncation in the source
(`as u8`) is written `% 256`.  A USB feature-report transfer is modelled by
the payload byte list the library hands to `send_feature_report`; functions
whose only effect is to issue such transfers are embedded as functions
returning the list of payloads they would send.  Strings are modelled by
their character lists.
-/

/-- Source constant `BLINKSTICK_VENDOR_ID`. -/
def BLINKSTICK_VENDOR_ID : Nat := 0x20A0

/-- Source constant `BLINKSTICK_PRODUCT_ID`. -/
def BLINKSTICK_PRODUCT_ID : Nat := 0x41E5

/-- Source constant `REPORT_ID_1` (first LED). -/
def REPORT_ID_1 : Nat := 1

/-- Source constant `REPORT_ID_2` (indexed LED on BlinkStick Pro). -/
def REPORT_ID_2 : Nat := 2

/-- Source constant `REPORT_ID_3` (multi-LED on BlinkStick Pro). -/
def REPORT_ID_3 : Nat := 3

/-- The `BlinkStickError` enum of `src/lib.rs`.  `usbError` stands for the
`UsbError(rusb::Error)` variant, with the wrapped `rusb` error abstracted
to a numeric code.  Note the enum has no invalid-argument variant. -/
inductive BlinkStickError where
  | usbError (code : Nat)
  | noDeviceFound
  | deviceDescriptorError
  | openDeviceError
  | claimInterfaceError
  | setConfigurationError
  | controlTransferError
deriving DecidableEq

/-- The `RgbColor` struct of `src/lib.rs` (fields `r`, `g`, `b`, each `u8`). -/
structure RgbColor where
  r : Nat
  g : Nat
  b : Nat
deriving DecidableEq

/-- Value of a hexadecimal digit character, as in Rust's
`char::to_digit(16)` used by `u32::from_str_radix`: `0`-`9`, `a`-`f`,
`A`-`F`; anything else is no digit. -/
def hex_digit_val (c : Char) : Option Nat :=
  if 48 ≤ c.toNat ∧ c.toNat ≤ 57 then some (c.toNat - 48)
  else if 97 ≤ c.toNat ∧ c.toNat ≤ 102 then some (c.toNat - 87)
  else if 65 ≤ c.toNat ∧ c.toNat ≤ 70 then some (c.toNat - 55)
  else none

/-- Whether `c` is a hexadecimal digit accepted by `hex_digit_val`. -/
def is_hex_digit (c : Char) : Bool :=
  (hex_digit_val c).isSome

/-- The digit-accumulation loop of `u32::from_str_radix(s, 16)`:
left fold `acc * 16 + digit` with the `u32` overflow check
(`checked_mul` / `checked_add` fail once the value would exceed
`u32::MAX = 4294967295`). -/
def parse_hex_digits : List Char → Nat → Option Nat
  | [], acc => some acc
  | c :: cs, acc =>
    match hex_digit_val c with
    | some d =>
      if acc * 16 + d ≤ 4294967295 then parse_hex_digits cs (acc * 16 + d)
      else none
    | none => none

/-- Rust's `u32::from_str_radix(s, 16)`: an empty string is an error; a
single leading `+` sign is stripped (`-` is not a sign for unsigned
types and fails as a digit); at least one digit must remain. -/
def u32_from_str_radix16 (s : List Char) : Option Nat :=
  match s with
  | [] => none
  | c :: cs =>
    if c == '+' then
      match cs with
      | [] => none
      | _ :: _ => parse_hex_digits cs 0
    else parse_hex_digits (c :: cs) 0

/-- The body of `RgbColor::from_hex` after the `#`-stripping: length check
`hex.len() == 6`, then `u32::from_str_radix(hex, 16)`, then the shifts
`(val >> 16) & 0xFF`, `(val >> 8) & 0xFF`, `val & 0xFF`. -/
def from_hex_core (hex : List Char) : Option RgbColor :=
  if hex.length = 6 then
    match u32_from_str_radix16 hex with
    | some val =>
      some ⟨(val >>> 16) &&& 255, (val >>> 8) &&& 255, val &&& 255⟩
    | none => none
  else none

/-- `RgbColor::from_hex` on a character list:
`hex.trim_start_matches('#')` drops every leading `'#'`. -/
def from_hex_chars (s : List Char) : Option RgbColor :=
  from_hex_core (s.dropWhile fun c => c == '#')

/-- `RgbColor::from_hex` on a string. -/
def from_hex (s : String) : Option RgbColor :=
  from_hex_chars s.data

/-- Predicate describing exactly the strings `u32::from_str_radix(_, 16)`
accepts, ignoring overflow: nonempty, an optional single leading `+`,
then at least one character, all hexadecimal digits. -/
def valid_u32_hex (s : List Char) : Bool :=
  match s with
  | [] => false
  | c :: cs =>
    if c == '+' then
      match cs with
      | [] => false
      | _ :: _ => cs.all is_hex_digit
    else (c :: cs).all is_hex_digit

/-- `BlinkStick::set_color`: the single feature-report payload
`[REPORT_ID_1, r, g, b]`. -/
def set_color (color : RgbColor) : List Nat :=
  [REPORT_ID_1, color.r, color.g, color.b]

/-- `BlinkStick::set_color_indexed`: index 0 is routed through
`set_color`; otherwise the payload is `[REPORT_ID_2, index, g, r, b]`. -/
def set_color_indexed (index : Nat) (color : RgbColor) : List Nat :=
  if index = 0 then set_color color
  else [REPORT_ID_2, index, color.g, color.r, color.b]

/-- `BlinkStick::set_colors`: the list of feature-report payloads issued.
An empty slice issues nothing, a one-element slice degenerates to
`set_color`, otherwise one report-3 payload
`[REPORT_ID_3, channel, 0, leds.len() as u8]` followed by `r`, `g`, `b`
for each LED. -/
def set_colors (channel : Nat) (leds : List RgbColor) : List (List Nat) :=
  match leds with
  | [] => []
  | [c] => [set_color c]
  | _ :: _ :: _ =>
    [[REPORT_ID_3, channel, 0, leds.length % 256] ++
      (leds.map fun color => [color.r, color.g, color.b]).flatten]

/-- Outcome of running a list of transfers against a device that accepts
(`true`) or rejects each payload: `send_feature_report` maps a rejected
transfer to `ControlTransferError`. -/
def run_transfers (dev : List Nat → Bool) (transfers : List (List Nat)) :
    Except BlinkStickError Unit :=
  if transfers.all dev then Except.ok () else Except.error BlinkStickError.controlTransferError

/-- The decoding step of `BlinkStick::get_color`: from the returned 4-byte
report-1 buffer the source builds `RgbColor { r: data[2], g: data[1],
b: data[3] }`. -/
def get_color_decode (data : List Nat) : RgbColor :=
  ⟨data.getD 2 0, data.getD 1 0, data.getD 3 0⟩

/-- The first expression of `BlinkStick::pulse`:
`Duration::from_millis((duration_ms / steps) as u64)`.  Rust `u32`
division panics on a zero divisor; the panic is modelled as `none`. -/
def pulse_step_delay (duration_ms steps : Nat) : Option Nat :=
  if steps = 0 then none else some (duration_ms / steps)

/-- A USB device as seen by `find_all` / `open`: its descriptor ids plus
the outcome of each fallible step of `BlinkStick::open`
(`kernelDriverActive = none` models a failing
`kernel_driver_active` query). -/
structure UsbDevice where
  vendorId : Nat
  productId : Nat
  descriptorOk : Bool
  openOk : Bool
  kernelDriverActive : Option Bool
  detachOk : Bool
  setConfigOk : Bool
  claimOk : Bool
deriving DecidableEq

/-- An opened `BlinkStick` session (the source struct holds the opened
device handle). -/
structure BlinkStick where
  device : UsbDevice
deriving DecidableEq

/-- `BlinkStick::find_all` over a snapshot of the USB bus: a descriptor
failure on any device aborts with `DeviceDescriptorError`; otherwise the
devices matching the BlinkStick vendor and product ids are kept in
enumeration order. -/
def find_all : List UsbDevice → Except BlinkStickError (List UsbDevice)
  | [] => Except.ok []
  | d :: rest =>
    if d.descriptorOk then
      match find_all rest with
      | Except.ok r =>
        Except.ok
          (if d.vendorId = BLINKSTICK_VENDOR_ID ∧ d.productId = BLINKSTICK_PRODUCT_ID
            then d :: r else r)
      | Except.error e => Except.error e
    else Except.error BlinkStickError.deviceDescriptorError

/-- `BlinkStick::open`: `device.open()` then `kernel_driver_active(0)?`
(detaching when active), `set_active_configuration(1)` and
`claim_interface(0)`, each mapped to its error as in the source. -/
def open_device (d : UsbDevice) : Except BlinkStickError BlinkStick :=
  if d.openOk then
    match d.kernelDriverActive with
    | none => Except.error (BlinkStickError.usbError 0)
    | some active =>
      if active ∧ d.detachOk = false then Except.error (BlinkStickError.usbError 1)
      else if d.setConfigOk then
        if d.claimOk then Except.ok ⟨d⟩
        else Except.error BlinkStickError.claimInterfaceError
      else Except.error BlinkStickError.setConfigurationError
  else Except.error BlinkStickError.openDeviceError

/-- `BlinkStick::find_first`: `find_all`, `NoDeviceFound` on an empty
list, otherwise `open` on the first device. -/
def find_first (devices : List UsbDevice) : Except BlinkStickError BlinkStick :=
  match find_all devices with
  | Except.error e => Except.error e
  | Except.ok ds =>
    match ds with
    | [] => Except.error BlinkStickError.noDeviceFound
    | d :: _ => open_device d

/-- A matching, fully functional device used to instantiate `find_first`. -/
def demo_device : UsbDevice :=
  ⟨0x20A0, 0x41E5, true, true, some false, true, true, true⟩

/-- 256 identical LEDs, used to instantiate the count-byte overflow. -/
def overflow_leds : List RgbColor :=
  List.replicate 256 ⟨1, 2, 3⟩

/-- Claim C4: encoding `[red, green]` on channel 0 via the multi-LED path
produces exactly the payload `[3, 0, 0, 2, 255, 0, 0, 0, 255, 0]`. -/
theorem set_colors_red_green_payload :
    set_colors 0 [⟨255, 0, 0⟩, ⟨0, 255, 0⟩] = [[3, 0, 0, 2, 255, 0, 0, 0, 255, 0]] := by
  decide

/-- Claim C5: for every channel (and every device behavior), `set_colors`
on an empty LED list issues zero transfers and returns success. -/
theorem set_colors_empty_no_transfer (dev : List Nat → Bool) (channel : Nat) :
    set_colors channel [] = [] ∧
      run_transfers dev (set_colors channel []) = Except.ok () :=
  ⟨rfl, rfl⟩

/-- Claim C6: for every color, the one-element multi-LED encode equals the
single-LED encode (so any decode of the two transfers agrees), and the
transfer carries report id 1, not 3. -/
theorem set_colors_singleton_report1 (channel : Nat) (color : RgbColor) :
    set_colors channel [color] = [set_color color] ∧
      set_color color = [REPORT_ID_1, color.r, color.g, color.b] ∧
      (set_color color).getD 0 0 = 1 ∧ (set_color color).getD 0 0 ≠ 3 :=
  ⟨rfl, rfl, rfl, by simp [set_color, REPORT_ID_1]⟩

/-- Claim C7: for every color, `set_color_indexed` at index 0 emits the
report-1 payload `[1, r, g, b]` and no report-2 transfer. -/
theorem set_color_indexed_zero_report1 (color : RgbColor) :
    set_color_indexed 0 color = [REPORT_ID_1, color.r, color.g, color.b] ∧
      (set_color_indexed 0 color).getD 0 0 ≠ 2 :=
  ⟨rfl, by simp [set_color_indexed, set_color, REPORT_ID_1]⟩

/-- Claim C1: `pulse` computes `duration_ms / steps` before any guard, so
`steps = 0` hits Rust's division-by-zero panic (modelled as `none`) for
every duration; no `InvalidEffectParameters` error is produced (the error
enum has no such variant). -/
theorem pulse_steps_zero_divides (duration_ms : Nat) :
    pulse_step_delay duration_ms 0 = none :=
  rfl

/-- Claim C2: the round trip through `set_color` and the `get_color`
decode is not the identity: for the input `(255, 0, 0)` it returns
`(0, 255, 0)`, because `get_color` reads `r` from byte 2 and `g` from
byte 1. -/
theorem get_color_set_color_not_inverse :
    get_color_decode (set_color ⟨255, 0, 0⟩) = ⟨0, 255, 0⟩ ∧
      get_color_decode (set_color ⟨255, 0, 0⟩) ≠ ⟨255, 0, 0⟩ := by
  exact ⟨rfl, by decide⟩

/-- The color bytes appended by `set_colors` amount to exactly three per
LED. -/
theorem triple_join_length (leds : List RgbColor) :
    ((leds.map fun color => [color.r, color.g, color.b]).flatten).length = 3 * leds.length := by
  induction leds with
  | nil => rfl
  | cons a t ih =>
    simp only [List.map_cons, List.flatten_cons, List.length_append, List.length_cons,
      List.length_nil, ih]
    omega

/-- Claim C9: a list of more than 255 LEDs is not rejected: `set_colors`
emits one transfer whose count byte is the length reduced mod 256 while
still appending three color bytes per LED, so the count byte disagrees
with the number of LED triples. -/
theorem set_colors_count_byte_overflow (channel : Nat) (leds : List RgbColor)
    (h : 255 < leds.length) :
    set_colors channel leds =
        [[REPORT_ID_3, channel, 0, leds.length % 256] ++
          (leds.map fun color => [color.r, color.g, color.b]).flatten] ∧
      ((leds.map fun color => [color.r, color.g, color.b]).flatten).length = 3 * leds.length ∧
      leds.length % 256 ≠ leds.length := by
  refine ⟨?_, triple_join_length leds, by omega⟩
  cases leds with
  | nil => simp at h
  | cons a t =>
    cases t with
    | nil => simp at h
    | cons b t2 => rfl

/-- Witness for claim C9 at a concrete 256-element list. -/
theorem set_colors_count_byte_overflow_witness :
    255 < overflow_leds.length ∧
      (set_colors 7 overflow_leds =
          [[REPORT_ID_3, 7, 0, overflow_leds.length % 256] ++
            (overflow_leds.map fun color => [color.r, color.g, color.b]).flatten] ∧
        ((overflow_leds.map fun color => [color.r, color.g, color.b]).flatten).length =
          3 * overflow_leds.length ∧
        overflow_leds.length % 256 ≠ overflow_leds.length) := by
  have h : 255 < overflow_leds.length := by
    unfold overflow_leds
    simp only [List.length_replicate]
    omega
  exact ⟨h, set_colors_count_byte_overflow 7 overflow_leds h⟩

/-- Claim C10: for every color and every index between 1 and 255,
`set_color_indexed` emits `[2, index, g, r, b]` — green, red, blue —
while the report-1 path emits `[1, r, g, b]`. -/
theorem set_color_indexed_grb_order (color : RgbColor) (index : Nat)
    (h1 : 1 ≤ index) (h2 : index ≤ 255) :
    set_color_indexed index color = [REPORT_ID_2, index, color.g, color.r, color.b] ∧
      set_color color = [REPORT_ID_1, color.r, color.g, color.b] := by
  refine ⟨?_, rfl⟩
  unfold set_color_indexed
  rw [if_neg (by omega)]

/-- Witness for claim C10 at index 5 and color `(10, 20, 30)`. -/
theorem set_color_indexed_grb_order_witness :
    1 ≤ 5 ∧ 5 ≤ 255 ∧
      (set_color_indexed 5 ⟨10, 20, 30⟩ = [REPORT_ID_2, 5, 20, 10, 30] ∧
        set_color ⟨10, 20, 30⟩ = [REPORT_ID_1, 10, 20, 30]) :=
  ⟨by decide, by decide, set_color_indexed_grb_order ⟨10, 20, 30⟩ 5 (by decide) (by decide)⟩

/-- `open_device` never produces the `NoDeviceFound` error: every failure
of `BlinkStick::open` is an open, configuration, claim or USB error. -/
theorem open_device_ne_noDeviceFound (d : UsbDevice) :
    open_device d ≠ Except.error BlinkStickError.noDeviceFound := by
  unfold open_device
  split
  · cases d.kernelDriverActive with
    | none => simp
    | some active =>
      simp only
      split
      · simp
      · split
        · split
          · simp
          · simp
        · simp
  · simp

/-- The only error `find_all` can return is `DeviceDescriptorError`. -/
theorem find_all_error_descriptor (devices : List UsbDevice) (e : BlinkStickError)
    (h : find_all devices = Except.error e) : e = BlinkStickError.deviceDescriptorError := by
  induction devices with
  | nil => simp [find_all] at h
  | cons d rest ih =>
    unfold find_all at h
    split at h
    · cases hr : find_all rest with
      | ok r => rw [hr] at h; simp at h
      | error e2 =>
        rw [hr] at h
        simp only [Except.error.injEq] at h
        subst h
        exact ih hr
    · simp only [Except.error.injEq] at h
      exact h.symm

/-- Claim C8: `find_first` fails with `NoDeviceFound` exactly when
`find_all` succeeds with an empty list, and when `find_all` succeeds with
a nonempty list `find_first` is exactly `open` applied to its first
device (enumeration order). -/
theorem find_first_spec (devices : List UsbDevice) :
    (find_first devices = Except.error BlinkStickError.noDeviceFound ↔
        find_all devices = Except.ok []) ∧
      ∀ d rest, find_all devices = Except.ok (d :: rest) →
        find_first devices = open_device d := by
  refine ⟨⟨?_, ?_⟩, ?_⟩
  · intro h
    unfold find_first at h
    cases hf : find_all devices with
    | error e =>
      rw [hf] at h
      have h' : (Except.error e : Except BlinkStickError BlinkStick) =
          Except.error BlinkStickError.noDeviceFound := h
      have he := find_all_error_descriptor devices e hf
      simp only [Except.error.injEq] at h'
      rw [h'] at he
      exact absurd he (by simp)
    | ok ds =>
      cases ds with
      | nil => rfl
      | cons d rest =>
        rw [hf] at h
        exact absurd h (open_device_ne_noDeviceFound d)
  · intro h
    unfold find_first
    rw [h]
  · intro d rest h
    unfold find_first
    rw [h]

/-- Witness for claim C8: on a bus holding one matching healthy device,
`find_first` is `open` applied to that device. -/
theorem find_first_spec_witness :
    find_first [demo_device] = open_device demo_device :=
  (find_first_spec [demo_device]).2 demo_device [] (by rfl)

/-- A hexadecimal digit value is at most 15. -/
theorem hex_digit_val_le15 (c : Char) (d : Nat) (h : hex_digit_val c = some d) :
    d ≤ 15 := by
  unfold hex_digit_val at h
  split at h
  · simp only [Option.some.injEq] at h
    omega
  · split at h
    · simp only [Option.some.injEq] at h
      omega
    · split at h
      · simp only [Option.some.injEq] at h
        omega
      · exact Option.noConfusion h

/-- Every character consumed by a successful digit fold is a hex digit. -/
theorem parse_hex_digits_all (l : List Char) :
    ∀ acc, (parse_hex_digits l acc).isSome = true → l.all is_hex_digit = true := by
  induction l with
  | nil =>
    intro acc _
    rfl
  | cons c cs ih =>
    intro acc h
    unfold parse_hex_digits at h
    cases hv : hex_digit_val c with
    | none =>
      rw [hv] at h
      simp at h
    | some d =>
      rw [hv] at h
      have h' : (if acc * 16 + d ≤ 4294967295 then parse_hex_digits cs (acc * 16 + d)
          else none).isSome = true := h
      split at h'
      · have hc : is_hex_digit c = true := by simp [is_hex_digit, hv]
        have ht := ih _ h'
        simp [List.all_cons, hc, ht]
      · simp at h'

/-- The digit fold succeeds on hex digits whenever the accumulated value
cannot overflow `u32`. -/
theorem parse_hex_digits_some (l : List Char) :
    ∀ acc, l.all is_hex_digit = true → (acc + 1) * 16 ^ l.length ≤ 4294967296 →
      (parse_hex_digits l acc).isSome = true := by
  induction l with
  | nil =>
    intro acc _ _
    rfl
  | cons c cs ih =>
    intro acc hall hbound
    rw [List.all_cons, Bool.and_eq_true] at hall
    obtain ⟨hc, hcs⟩ := hall
    obtain ⟨d, hv⟩ : ∃ d, hex_digit_val c = some d := by
      cases hval : hex_digit_val c with
      | none =>
        rw [is_hex_digit, hval] at hc
        exact absurd hc (by simp)
      | some d => exact ⟨d, rfl⟩
    have hd : d ≤ 15 := hex_digit_val_le15 c d hv
    have hp : (1 : Nat) ≤ 16 ^ cs.length := Nat.one_le_pow _ _ (by omega)
    have hpow : (16 : Nat) ^ (c :: cs).length = 16 ^ cs.length * 16 := by
      rw [List.length_cons, pow_succ]
    have hstep : acc * 16 + d + 1 ≤ (acc + 1) * 16 := by omega
    have hb2 : (acc * 16 + d + 1) * 16 ^ cs.length ≤ 4294967296 := by
      calc (acc * 16 + d + 1) * 16 ^ cs.length
          ≤ (acc + 1) * 16 * 16 ^ cs.length := Nat.mul_le_mul hstep (Nat.le_refl _)
        _ = (acc + 1) * 16 ^ (c :: cs).length := by rw [hpow]; ring
        _ ≤ 4294967296 := hbound
    have hguard : acc * 16 + d ≤ 4294967295 := by
      have h1 : (acc * 16 + d + 1) * 1 ≤ (acc * 16 + d + 1) * 16 ^ cs.length :=
        Nat.mul_le_mul (Nat.le_refl _) hp
      omega
    unfold parse_hex_digits
    rw [hv]
    show (if acc * 16 + d ≤ 4294967295 then parse_hex_digits cs (acc * 16 + d)
        else none).isSome = true
    rw [if_pos hguard]
    exact ih _ hcs hb2

/-- With exactly six characters, `u32::from_str_radix(_, 16)` succeeds
precisely on the strings `valid_u32_hex` describes; at this length the
value fits `u32`, so overflow never interferes. -/
theorem u32_from_str_radix16_isSome (hex : List Char) (hlen : hex.length = 6) :
    (u32_from_str_radix16 hex).isSome = true ↔ valid_u32_hex hex = true := by
  cases hex with
  | nil => simp at hlen
  | cons a rest =>
    have hrest : rest.length = 5 := by
      rw [List.length_cons] at hlen
      omega
    simp only [u32_from_str_radix16, valid_u32_hex]
    by_cases hplus : (a == '+') = true
    · rw [if_pos hplus, if_pos hplus]
      cases rest with
      | nil => simp at hrest
      | cons b t =>
        constructor
        · intro h
          exact parse_hex_digits_all _ _ h
        · intro h
          exact parse_hex_digits_some _ _ h (by rw [hrest]; norm_num)
    · rw [if_neg hplus, if_neg hplus]
      constructor
      · intro h
        exact parse_hex_digits_all _ _ h
      · intro h
        exact parse_hex_digits_some _ _ h (by rw [hlen]; norm_num)

/-- Claim C3 (amended): `from_hex` yields a value exactly when, after
stripping every leading `'#'` (the source strips them all, not just one),
the remainder is six characters long and is accepted by
`u32::from_str_radix(_, 16)`: six hex digits, or a single `'+'` followed
by five hex digits. -/
theorem from_hex_isSome_iff (s : String) :
    (from_hex s).isSome = true ↔
      ((s.data.dropWhile fun c => c == '#').length = 6 ∧
        valid_u32_hex (s.data.dropWhile fun c => c == '#') = true) := by
  unfold from_hex from_hex_chars from_hex_core
  by_cases hl : (s.data.dropWhile fun c => c == '#').length = 6
  · rw [if_pos hl]
    have hiff := u32_from_str_radix16_isSome _ hl
    cases hp : u32_from_str_radix16 (s.data.dropWhile fun c => c == '#') with
    | none =>
      rw [hp] at hiff
      simp only [Option.isSome_none, Bool.false_eq_true, false_iff] at hiff
      simp [hl, hiff]
    | some v =>
      rw [hp] at hiff
      simp only [Option.isSome_some, true_iff] at hiff
      simp [hl, hiff]
  · rw [if_neg hl]
    simp [hl]

/-- Claim C3 counterexample: the code accepts `"##ff0000"`, although after
stripping a single leading `'#'` the remainder `"#ff0000"` has length 7,
not 6, so the claim as stated demands `none`. -/
theorem from_hex_double_hash_counterexample :
    from_hex "##ff0000" = some ⟨255, 0, 0⟩ ∧
      ("##ff0000".data.drop 1).length ≠ 6 := by
  exact ⟨rfl, by decide⟩
